import Mathlib

/-!
Verification development for the AI storybook batch scripts.

The repository consists of sequential batch scripts that iterate a static
manifest, call an external image service once per pending entry, and write
results to disk.  We embed the two representative scripts:

* `src/generate-images.py` (generation mode): function `generate_images`,
  module-level API-key check, fixed delay `DELAY_BETWEEN_REQUESTS = 6`.
* `src/books/conga-getting-started/annotate-screenshots.py` (the annotate
  variant): functions `annotate_images` and `restore_originals`, the
  `__main__` dispatcher, fixed delay `DELAY_BETWEEN_REQUESTS = 5`.

Filesystem directories are modelled as association lists from filename to
file bytes (`List Nat`).  External effects (API calls, sleeps, file writes)
are recorded in an event trace.  The vendor response and per-item
exceptions are abstracted by an oracle `Nat → CallResult` indexed by the
1-based loop counter, mirroring the `try/except` structure of the scripts.
-/

namespace Storybook

/-- One part of a vendor response candidate: optional inline image bytes
and optional text, as in the `google-genai` response object. -/
structure Part where
  inline_data : Option (List Nat)
  text : Option String
deriving DecidableEq

/-- One response candidate: an ordered list of parts plus an optional
finish reason. -/
structure Candidate where
  parts : List Part
  finish_reason : Option String
deriving DecidableEq

/-- A vendor response: an ordered list of candidates. -/
structure Response where
  candidates : List Candidate
deriving DecidableEq

/-- Outcome of one external call attempt: either a response object or an
exception raised during the request/save of that item. -/
inductive CallResult where
  | ok (r : Response)
  | exn (msg : String)
deriving DecidableEq

/-- Observable external effects of a run, in order. -/
inductive Event where
  | apiCall (name : String)
  | sleep (seconds : Nat)
  | writeImages (name : String) (bytes : List Nat)
  | writeRaw (name : String) (bytes : List Nat)
  | writeManifestJson (entries : List (String × Bool))
deriving DecidableEq

/-- `true` exactly on external generation/edit calls. -/
def Event.isApiCall : Event → Bool
  | Event.apiCall _ => true
  | _ => false

/-- `true` exactly on rate-limit sleeps. -/
def Event.isSleep : Event → Bool
  | Event.sleep _ => true
  | _ => false

/-- Directory contents: filename to file bytes. -/
abbrev Dir := List (String × List Nat)

/-- Look up a file's bytes in a directory. -/
def lookupFile (fs : Dir) (n : String) : Option (List Nat) :=
  match fs with
  | [] => none
  | p :: rest => if p.1 = n then some p.2 else lookupFile rest n

/-- Write (create or overwrite) a file in a directory. -/
def writeFile (fs : Dir) (n : String) (bs : List Nat) : Dir :=
  match fs with
  | [] => [(n, bs)]
  | p :: rest => if p.1 = n then (n, bs) :: rest else p :: writeFile rest n bs

/-- The skip guard of generation mode:
`filepath.exists() and filepath.stat().st_size > 0`. -/
def existsNonEmpty (fs : Dir) (n : String) : Bool :=
  match lookupFile fs n with
  | some bs => bs.length > 0
  | none => false

/-- Image extraction as coded in both scripts: iterate
`response.candidates[0].content.parts`, save the first part whose
`inline_data` is not `None`, then `break`; yields `none` when there is no
candidate or no part carries inline image data. -/
def extractImage (r : Response) : Option (List Nat) :=
  match r.candidates with
  | [] => none
  | c :: _ => (c.parts.find? (fun p => p.inline_data.isSome)).bind (fun p => p.inline_data)

/-- The parts of the first candidate (empty when there is no candidate). -/
def firstCandidateParts (r : Response) : List Part :=
  match r.candidates with
  | [] => []
  | c :: _ => c.parts

/-- Modelled from the spec wording for the extraction contract: scan the
parts in order and return the first inline-image payload encountered. -/
def specFirstInline : List Part → Option (List Nat)
  | [] => none
  | p :: rest =>
    match p.inline_data with
    | some d => some d
    | none => specFirstInline rest

theorem lookupFile_writeFile_self (fs : Dir) (n : String) (bs : List Nat) :
    lookupFile (writeFile fs n bs) n = some bs := by
  induction fs with
  | nil => simp [writeFile, lookupFile]
  | cons p rest ih =>
    by_cases h : p.1 = n
    · simp [writeFile, lookupFile, h]
    · simp [writeFile, lookupFile, h, ih]

theorem lookupFile_writeFile_ne (fs : Dir) (n m : String) (bs : List Nat)
    (h : m ≠ n) : lookupFile (writeFile fs n bs) m = lookupFile fs m := by
  induction fs with
  | nil => simp [writeFile, lookupFile, Ne.symm h]
  | cons p rest ih =>
    by_cases hp : p.1 = n
    · simp [writeFile, lookupFile, hp, Ne.symm h]
    · simp [writeFile, lookupFile, hp, ih]

theorem lookupFile_writeFile (fs : Dir) (n m : String) (bs : List Nat) :
    lookupFile (writeFile fs n bs) m =
      if m = n then some bs else lookupFile fs m := by
  by_cases h : m = n
  · simp [h, lookupFile_writeFile_self]
  · simp [h, lookupFile_writeFile_ne fs n m bs h]

theorem find?_inline_eq_spec (parts : List Part) :
    (parts.find? (fun p => p.inline_data.isSome)).bind (fun p => p.inline_data) =
      specFirstInline parts := by
  induction parts with
  | nil => simp [specFirstInline]
  | cons p rest ih =>
    cases hp : p.inline_data with
    | some d => simp [List.find?, hp, specFirstInline]
    | none => simpa [List.find?, hp, specFirstInline] using ih

theorem extractImage_eq_spec (r : Response) :
    extractImage r = specFirstInline (firstCandidateParts r) := by
  unfold extractImage firstCandidateParts
  cases hc : r.candidates with
  | nil => simp [specFirstInline]
  | cons c rest => exact find?_inline_eq_spec c.parts

/-- The `RAW_DIR.glob("*.png")` filter of the restore operation: a
filename matches when it ends with `".png"`. -/
def isPngName (n : String) : Bool := List.isSuffixOf ".png".data n.data

/-- `if not API_KEY:` — missing or empty API key. -/
def keyMissing (k : Option String) : Bool :=
  match k with
  | none => true
  | some s => s == ""

end Storybook

namespace GenerateImages

open Storybook

/-- `DELAY_BETWEEN_REQUESTS = 6` in `src/generate-images.py`. -/
def DELAY_BETWEEN_REQUESTS : Nat := 6

/-- One manifest entry of the generation script. -/
structure ManifestEntry where
  filename : String
  prompt : String
  aspect_ratio : String
  resolution : String
  placement : String
deriving DecidableEq

/-- Run state of `generate_images`: the output directory contents, the
three counters, and the external-event trace. -/
structure GenState where
  fs : Dir
  generated : Nat
  skipped : Nat
  failed : Nat
  events : List Event
deriving DecidableEq

/-- One iteration of the `for i, img in enumerate(IMAGE_MANIFEST, 1)` loop:
skip guard (with `continue`, so the skipping path reaches no delay), one
API call via the oracle, first-image extraction and save, counter update,
and the `if i < total: time.sleep(...)` delay. -/
def genEntry (total : Nat) (oracle : Nat → CallResult) (i : Nat)
    (e : ManifestEntry) (s : GenState) : GenState :=
  if existsNonEmpty s.fs e.filename then
    { s with skipped := s.skipped + 1 }
  else
    let s1 := { s with events := s.events ++ [Event.apiCall e.filename] }
    let s2 :=
      match oracle i with
      | CallResult.ok r =>
        match extractImage r with
        | some img =>
          { s1 with fs := writeFile s1.fs e.filename img,
                    generated := s1.generated + 1,
                    events := s1.events ++ [Event.writeImages e.filename img] }
        | none => { s1 with failed := s1.failed + 1 }
      | CallResult.exn _ => { s1 with failed := s1.failed + 1 }
    if i < total then
      { s2 with events := s2.events ++ [Event.sleep DELAY_BETWEEN_REQUESTS] }
    else s2

/-- The manifest loop, with the 1-based counter threaded through. -/
def genLoop (total : Nat) (oracle : Nat → CallResult) :
    Nat → List ManifestEntry → GenState → GenState
  | _, [], s => s
  | i, e :: rest, s => genLoop total oracle (i + 1) rest (genEntry total oracle i e s)

/-- `generate_images()`: run the loop over the manifest starting from zero
counters, then write the `manifest.json` snapshot with a computed `exists`
flag per entry. -/
def generate_images (manifest : List ManifestEntry) (oracle : Nat → CallResult)
    (fs0 : Dir) : GenState :=
  let s := genLoop manifest.length oracle 1 manifest
    { fs := fs0, generated := 0, skipped := 0, failed := 0, events := [] }
  { s with events := s.events ++
      [Event.writeManifestJson
        (manifest.map (fun e => (e.filename, (lookupFile s.fs e.filename).isSome)))] }

theorem genEntry_counter_sum (total : Nat) (oracle : Nat → CallResult) (i : Nat)
    (e : ManifestEntry) (s : GenState) :
    (genEntry total oracle i e s).generated + (genEntry total oracle i e s).skipped
      + (genEntry total oracle i e s).failed
      = s.generated + s.skipped + s.failed + 1 := by
  unfold genEntry
  cases h : existsNonEmpty s.fs e.filename
  · cases ho : oracle i with
    | ok r =>
      cases he : extractImage r with
      | some img => by_cases hi : i < total <;> simp [h, ho, he, hi] <;> omega
      | none => by_cases hi : i < total <;> simp [h, ho, he, hi] <;> omega
    | exn m => by_cases hi : i < total <;> simp [h, ho, hi] <;> omega
  · simp [h]
    omega

theorem genLoop_counter_sum (total : Nat) (oracle : Nat → CallResult)
    (entries : List ManifestEntry) : ∀ (i : Nat) (s : GenState),
    (genLoop total oracle i entries s).generated
      + (genLoop total oracle i entries s).skipped
      + (genLoop total oracle i entries s).failed
      = s.generated + s.skipped + s.failed + entries.length := by
  induction entries with
  | nil => intro i s; simp [genLoop]
  | cons e rest ih =>
    intro i s
    have h1 := genEntry_counter_sum total oracle i e s
    have h2 := ih (i + 1) (genEntry total oracle i e s)
    simp only [genLoop, List.length_cons]
    omega

theorem genEntry_skip (total : Nat) (oracle : Nat → CallResult) (i : Nat)
    (e : ManifestEntry) (s : GenState)
    (h : existsNonEmpty s.fs e.filename = true) :
    genEntry total oracle i e s = { s with skipped := s.skipped + 1 } := by
  unfold genEntry
  simp [h]

theorem genEntry_save (total : Nat) (oracle : Nat → CallResult) (i : Nat)
    (e : ManifestEntry) (s : GenState) (r : Response) (img : List Nat)
    (hns : existsNonEmpty s.fs e.filename = false)
    (hok : oracle i = CallResult.ok r)
    (he : extractImage r = some img) :
    lookupFile (genEntry total oracle i e s).fs e.filename = some img ∧
    (genEntry total oracle i e s).generated = s.generated + 1 ∧
    (genEntry total oracle i e s).failed = s.failed := by
  unfold genEntry
  by_cases hi : i < total <;>
    simp [hns, hok, he, hi, lookupFile_writeFile_self]

theorem genEntry_nosave (total : Nat) (oracle : Nat → CallResult) (i : Nat)
    (e : ManifestEntry) (s : GenState) (r : Response)
    (hns : existsNonEmpty s.fs e.filename = false)
    (hok : oracle i = CallResult.ok r)
    (he : extractImage r = none) :
    (genEntry total oracle i e s).failed = s.failed + 1 ∧
    (genEntry total oracle i e s).fs = s.fs ∧
    (genEntry total oracle i e s).generated = s.generated := by
  unfold genEntry
  by_cases hi : i < total <;> simp [hns, hok, he, hi]

theorem genLoop_all_skip (total : Nat) (oracle : Nat → CallResult)
    (entries : List ManifestEntry) : ∀ (i : Nat) (s : GenState),
    (∀ e ∈ entries, existsNonEmpty s.fs e.filename = true) →
    genLoop total oracle i entries s =
      { s with skipped := s.skipped + entries.length } := by
  induction entries with
  | nil => intro i s _; simp [genLoop]
  | cons e rest ih =>
    intro i s h
    have he : existsNonEmpty s.fs e.filename = true := h e (by simp)
    have hstep := genEntry_skip total oracle i e s he
    simp only [genLoop, hstep]
    rw [ih (i + 1) { s with skipped := s.skipped + 1 }
      (by intro x hx; simpa using h x (by simp [hx]))]
    simp [List.length_cons]
    omega

/-- The module-level flow of `src/generate-images.py`: the API-key check
runs before anything else (`sys.exit(1)` on a falsy key), then
`generate_images()` runs and the process exits 0 iff no item failed. -/
def generate_main (apiKey : Option String) (manifest : List ManifestEntry)
    (oracle : Nat → CallResult) (fs0 : Dir) : Nat × List Event :=
  if keyMissing apiKey then (1, [])
  else
    let s := generate_images manifest oracle fs0
    (if s.failed == 0 then 0 else 1, s.events)

end GenerateImages

namespace AnnotateScreenshots

open Storybook

/-- `DELAY_BETWEEN_REQUESTS = 5` in
`src/books/conga-getting-started/annotate-screenshots.py`. -/
def DELAY_BETWEEN_REQUESTS : Nat := 5

/-- One entry of the `ANNOTATIONS` manifest. -/
structure AnnotationEntry where
  filename : String
  style : String
  description : String
  instruction : String
deriving DecidableEq

/-- Run state of `annotate_images`: the live images directory, the
`images/raw/` backup directory, the three counters, and the event trace. -/
structure AnnState where
  live : Dir
  raw : Dir
  annotated : Nat
  skipped : Nat
  failed : Nat
  events : List Event
deriving DecidableEq

/-- One iteration of the `for i, ann in enumerate(to_annotate, 1)` loop:
missing-source skip (`continue`), already-annotated skip when the backup
exists and `--force` is absent (`continue`), backup of the source to
`raw/` only when no backup exists yet, one API call via the oracle,
first-image extraction overwriting the live source, counter update, and
the `if i < total: time.sleep(...)` delay. -/
def annEntry (total : Nat) (force : Bool) (oracle : Nat → CallResult) (i : Nat)
    (e : AnnotationEntry) (s : AnnState) : AnnState :=
  match lookupFile s.live e.filename with
  | none => { s with skipped := s.skipped + 1 }
  | some srcBytes =>
    if (lookupFile s.raw e.filename).isSome && !force then
      { s with skipped := s.skipped + 1 }
    else
      let s1 :=
        if (lookupFile s.raw e.filename).isSome then s
        else { s with raw := writeFile s.raw e.filename srcBytes,
                      events := s.events ++ [Event.writeRaw e.filename srcBytes] }
      let s2 := { s1 with events := s1.events ++ [Event.apiCall e.filename] }
      let s3 :=
        match oracle i with
        | CallResult.ok r =>
          match extractImage r with
          | some img =>
            { s2 with live := writeFile s2.live e.filename img,
                      annotated := s2.annotated + 1,
                      events := s2.events ++ [Event.writeImages e.filename img] }
          | none => { s2 with failed := s2.failed + 1 }
        | CallResult.exn _ => { s2 with failed := s2.failed + 1 }
      if i < total then
        { s3 with events := s3.events ++ [Event.sleep DELAY_BETWEEN_REQUESTS] }
      else s3

/-- The annotation loop, with the 1-based counter threaded through. -/
def annLoop (total : Nat) (force : Bool) (oracle : Nat → CallResult) :
    Nat → List AnnotationEntry → AnnState → AnnState
  | _, [], s => s
  | i, e :: rest, s =>
    annLoop total force oracle (i + 1) rest (annEntry total force oracle i e s)

theorem annEntry_counter_sum (total : Nat) (force : Bool) (oracle : Nat → CallResult)
    (i : Nat) (e : AnnotationEntry) (s : AnnState) :
    (annEntry total force oracle i e s).annotated
      + (annEntry total force oracle i e s).skipped
      + (annEntry total force oracle i e s).failed
      = s.annotated + s.skipped + s.failed + 1 := by
  unfold annEntry
  cases hl : lookupFile s.live e.filename with
  | none => simp; omega
  | some srcBytes =>
    cases hf : force <;> cases hb : (lookupFile s.raw e.filename).isSome <;>
    cases ho : oracle i with
    | ok r =>
      cases he : extractImage r <;>
        by_cases hi : i < total <;> simp [hf, hb, ho, he, hi] <;> omega
    | exn m =>
      by_cases hi : i < total <;> simp [hf, hb, ho, hi] <;> omega

theorem annLoop_counter_sum (total : Nat) (force : Bool) (oracle : Nat → CallResult)
    (entries : List AnnotationEntry) : ∀ (i : Nat) (s : AnnState),
    (annLoop total force oracle i entries s).annotated
      + (annLoop total force oracle i entries s).skipped
      + (annLoop total force oracle i entries s).failed
      = s.annotated + s.skipped + s.failed + entries.length := by
  induction entries with
  | nil => intro i s; simp [annLoop]
  | cons e rest ih =>
    intro i s
    have h1 := annEntry_counter_sum total force oracle i e s
    have h2 := ih (i + 1) (annEntry total force oracle i e s)
    simp only [annLoop, List.length_cons]
    omega

theorem annEntry_exn_fields (total : Nat) (force : Bool) (oracle : Nat → CallResult)
    (i : Nat) (e : AnnotationEntry) (s : AnnState) (msg : String) (bs : List Nat)
    (hl : lookupFile s.live e.filename = some bs)
    (hg : ((lookupFile s.raw e.filename).isSome && !force) = false)
    (hexn : oracle i = CallResult.exn msg) :
    (annEntry total force oracle i e s).failed = s.failed + 1 ∧
    (annEntry total force oracle i e s).annotated = s.annotated ∧
    (annEntry total force oracle i e s).skipped = s.skipped ∧
    (annEntry total force oracle i e s).live = s.live := by
  unfold annEntry
  cases hf : force <;> subst hf
  · cases hbv : lookupFile s.raw e.filename with
    | some b => rw [hbv] at hg; simp at hg
    | none => by_cases hi : i < total <;> simp [hl, hbv, hexn, hi]
  · cases hbv : lookupFile s.raw e.filename with
    | some b => by_cases hi : i < total <;> simp [hl, hbv, hexn, hi]
    | none => by_cases hi : i < total <;> simp [hl, hbv, hexn, hi]

theorem annEntry_save (total : Nat) (force : Bool) (oracle : Nat → CallResult)
    (i : Nat) (e : AnnotationEntry) (s : AnnState) (r : Response)
    (img bs : List Nat)
    (hl : lookupFile s.live e.filename = some bs)
    (hg : ((lookupFile s.raw e.filename).isSome && !force) = false)
    (hok : oracle i = CallResult.ok r)
    (he : extractImage r = some img) :
    lookupFile (annEntry total force oracle i e s).live e.filename = some img ∧
    (annEntry total force oracle i e s).annotated = s.annotated + 1 ∧
    (annEntry total force oracle i e s).failed = s.failed := by
  unfold annEntry
  cases hf : force <;> subst hf
  · cases hbv : lookupFile s.raw e.filename with
    | some b => rw [hbv] at hg; simp at hg
    | none =>
      by_cases hi : i < total <;>
        simp [hl, hbv, hok, he, hi, lookupFile_writeFile_self]
  · cases hbv : lookupFile s.raw e.filename with
    | some b =>
      by_cases hi : i < total <;>
        simp [hl, hbv, hok, he, hi, lookupFile_writeFile_self]
    | none =>
      by_cases hi : i < total <;>
        simp [hl, hbv, hok, he, hi, lookupFile_writeFile_self]

theorem annEntry_nosave (total : Nat) (force : Bool) (oracle : Nat → CallResult)
    (i : Nat) (e : AnnotationEntry) (s : AnnState) (r : Response) (bs : List Nat)
    (hl : lookupFile s.live e.filename = some bs)
    (hg : ((lookupFile s.raw e.filename).isSome && !force) = false)
    (hok : oracle i = CallResult.ok r)
    (he : extractImage r = none) :
    (annEntry total force oracle i e s).failed = s.failed + 1 ∧
    (annEntry total force oracle i e s).live = s.live ∧
    (annEntry total force oracle i e s).annotated = s.annotated := by
  unfold annEntry
  cases hf : force <;> subst hf
  · cases hbv : lookupFile s.raw e.filename with
    | some b => rw [hbv] at hg; simp at hg
    | none => by_cases hi : i < total <;> simp [hl, hbv, hok, he, hi]
  · cases hbv : lookupFile s.raw e.filename with
    | some b => by_cases hi : i < total <;> simp [hl, hbv, hok, he, hi]
    | none => by_cases hi : i < total <;> simp [hl, hbv, hok, he, hi]

/-- `annotate_images()`: filter out entries with style `"none"`, then run
the loop from zero counters over the filtered work list. -/
def annotate_images (anns : List AnnotationEntry) (force : Bool)
    (oracle : Nat → CallResult) (live0 raw0 : Dir) : AnnState :=
  let to_annotate := anns.filter (fun a => a.style != "none")
  annLoop to_annotate.length force oracle 1 to_annotate
    { live := live0, raw := raw0, annotated := 0, skipped := 0, failed := 0, events := [] }

theorem annEntry_raw_cases (total : Nat) (force : Bool) (oracle : Nat → CallResult)
    (i : Nat) (e : AnnotationEntry) (s : AnnState) :
    (annEntry total force oracle i e s).raw = s.raw ∨
    (lookupFile s.raw e.filename = none ∧ ∃ src,
      lookupFile s.live e.filename = some src ∧
      (annEntry total force oracle i e s).raw = writeFile s.raw e.filename src) := by
  unfold annEntry
  cases hl : lookupFile s.live e.filename with
  | none => left; rfl
  | some src =>
    cases hf : force <;> subst hf <;>
      cases hbv : lookupFile s.raw e.filename with
    | some b =>
      left
      cases ho : oracle i with
      | ok r => cases he : extractImage r <;> by_cases hi : i < total <;> simp [hbv, ho, he, hi]
      | exn m => by_cases hi : i < total <;> simp [hbv, ho, hi]
    | none =>
      right
      refine ⟨rfl, src, rfl, ?_⟩
      cases ho : oracle i with
      | ok r => cases he : extractImage r <;> by_cases hi : i < total <;> simp [hbv, ho, he, hi]
      | exn m => by_cases hi : i < total <;> simp [hbv, ho, hi]

theorem annEntry_live_cases (total : Nat) (force : Bool) (oracle : Nat → CallResult)
    (i : Nat) (e : AnnotationEntry) (s : AnnState) :
    (annEntry total force oracle i e s).live = s.live ∨
    (∃ img, (annEntry total force oracle i e s).live = writeFile s.live e.filename img ∧
      lookupFile (annEntry total force oracle i e s).raw e.filename ≠ none) := by
  unfold annEntry
  cases hl : lookupFile s.live e.filename with
  | none => left; rfl
  | some src =>
    cases hf : force <;> subst hf
    · cases hbv : lookupFile s.raw e.filename with
      | some b => left; simp [hbv]
      | none =>
        cases ho : oracle i with
        | ok r =>
          cases he : extractImage r with
          | some img =>
            right
            refine ⟨img, ?_, ?_⟩ <;>
              by_cases hi : i < total <;>
                simp [hbv, ho, he, hi, lookupFile_writeFile_self]
          | none => left; by_cases hi : i < total <;> simp [hbv, ho, he, hi]
        | exn m => left; by_cases hi : i < total <;> simp [hbv, ho, hi]
    · cases hbv : lookupFile s.raw e.filename with
      | some b =>
        cases ho : oracle i with
        | ok r =>
          cases he : extractImage r with
          | some img =>
            right
            refine ⟨img, ?_, ?_⟩ <;>
              by_cases hi : i < total <;> simp [hbv, ho, he, hi]
          | none => left; by_cases hi : i < total <;> simp [hbv, ho, he, hi]
        | exn m => left; by_cases hi : i < total <;> simp [hbv, ho, hi]
      | none =>
        cases ho : oracle i with
        | ok r =>
          cases he : extractImage r with
          | some img =>
            right
            refine ⟨img, ?_, ?_⟩ <;>
              by_cases hi : i < total <;>
                simp [hbv, ho, he, hi, lookupFile_writeFile_self]
          | none => left; by_cases hi : i < total <;> simp [hbv, ho, he, hi]
        | exn m => left; by_cases hi : i < total <;> simp [hbv, ho, hi]

/-- The backup-once relation between an earlier and a later state of the
same annotation batch: every backup file is either untouched or was
created (from the then-current live bytes) where none existed, and any
change to a live file is covered by a backup. -/
def BackupInv (s0 s1 : AnnState) : Prop :=
  ∀ n, (lookupFile s1.raw n = lookupFile s0.raw n ∨
        (lookupFile s0.raw n = none ∧
          lookupFile s1.raw n = lookupFile s0.live n ∧
          lookupFile s1.raw n ≠ none)) ∧
       (lookupFile s1.live n ≠ lookupFile s0.live n → lookupFile s1.raw n ≠ none)

theorem backupInv_refl (s : AnnState) : BackupInv s s :=
  fun _ => ⟨Or.inl rfl, fun h => absurd rfl h⟩

theorem backupInv_trans {s0 s1 s2 : AnnState}
    (h01 : BackupInv s0 s1) (h12 : BackupInv s1 s2) : BackupInv s0 s2 := by
  intro n
  have raw2ne : lookupFile s1.raw n ≠ none → lookupFile s2.raw n ≠ none := by
    intro h1
    rcases (h12 n).1 with h | h
    · rw [h]; exact h1
    · exact h.2.2
  constructor
  · rcases (h12 n).1 with h12r | h12r
    · rcases (h01 n).1 with h01r | h01r
      · exact Or.inl (h12r.trans h01r)
      · exact Or.inr ⟨h01r.1, h12r.trans h01r.2.1, h12r ▸ h01r.2.2⟩
    · rcases (h01 n).1 with h01r | h01r
      · have hlive : lookupFile s1.live n = lookupFile s0.live n := by
          by_contra hne
          exact (h12r.1.symm ▸ (h01 n).2 hne) rfl
        exact Or.inr ⟨h01r ▸ h12r.1, h12r.2.1.trans hlive, h12r.2.2⟩
      · exact absurd h12r.1 (fun hc => h01r.2.2 hc)
  · intro hlive
    by_cases h21 : lookupFile s2.live n = lookupFile s1.live n
    · have : lookupFile s1.live n ≠ lookupFile s0.live n := by
        intro hc; exact hlive (h21.trans hc)
      exact raw2ne ((h01 n).2 this)
    · exact (h12 n).2 h21

theorem annEntry_backupInv (total : Nat) (force : Bool) (oracle : Nat → CallResult)
    (i : Nat) (e : AnnotationEntry) (s : AnnState) :
    BackupInv s (annEntry total force oracle i e s) := by
  intro n
  constructor
  · rcases annEntry_raw_cases total force oracle i e s with hr | ⟨hnone, src, hsrc, hr⟩
    · exact Or.inl (by rw [hr])
    · by_cases hn : n = e.filename
      · subst hn
        refine Or.inr ⟨hnone, ?_, ?_⟩
        · rw [hr, lookupFile_writeFile_self, hsrc]
        · rw [hr, lookupFile_writeFile_self]; exact Option.some_ne_none src
      · exact Or.inl (by rw [hr, lookupFile_writeFile_ne _ _ _ _ hn])
  · intro hlive
    rcases annEntry_live_cases total force oracle i e s with hl | ⟨img, hl, hraw⟩
    · exact absurd (by rw [hl]) hlive
    · by_cases hn : n = e.filename
      · subst hn; exact hraw
      · exact absurd (by rw [hl, lookupFile_writeFile_ne _ _ _ _ hn]) hlive

theorem annLoop_backupInv (total : Nat) (force : Bool) (oracle : Nat → CallResult)
    (entries : List AnnotationEntry) : ∀ (i : Nat) (s : AnnState),
    BackupInv s (annLoop total force oracle i entries s) := by
  induction entries with
  | nil => intro i s; exact backupInv_refl s
  | cons e rest ih =>
    intro i s
    exact backupInv_trans (annEntry_backupInv total force oracle i e s)
      (ih (i + 1) (annEntry total force oracle i e s))

theorem annEntry_writeRaw_mem (total : Nat) (force : Bool) (oracle : Nat → CallResult)
    (i : Nat) (e : AnnotationEntry) (s : AnnState) (n : String) (bs : List Nat)
    (h : Event.writeRaw n bs ∈ (annEntry total force oracle i e s).events) :
    Event.writeRaw n bs ∈ s.events ∨ lookupFile s.raw n = none := by
  revert h
  unfold annEntry
  cases hl : lookupFile s.live e.filename with
  | none => intro h; exact Or.inl h
  | some src =>
    cases hf : force <;> subst hf
    · cases hbv : lookupFile s.raw e.filename with
      | some b => intro h; simp [hbv] at h; exact Or.inl h
      | none =>
        cases ho : oracle i with
        | ok r =>
          cases he : extractImage r <;>
            by_cases hi : i < total <;>
              · intro h
                simp [hbv, ho, he, hi] at h
                rcases h with h | h
                · exact Or.inl h
                · exact Or.inr (by rw [h.1]; exact hbv)
        | exn m =>
          by_cases hi : i < total <;>
            · intro h
              simp [hbv, ho, hi] at h
              rcases h with h | h
              · exact Or.inl h
              · exact Or.inr (by rw [h.1]; exact hbv)
    · cases hbv : lookupFile s.raw e.filename with
      | some b =>
        cases ho : oracle i with
        | ok r =>
          cases he : extractImage r <;>
            by_cases hi : i < total <;>
              · intro h
                simp [hbv, ho, he, hi] at h
                exact Or.inl h
        | exn m =>
          by_cases hi : i < total <;>
            · intro h
              simp [hbv, ho, hi] at h
              exact Or.inl h
      | none =>
        cases ho : oracle i with
        | ok r =>
          cases he : extractImage r <;>
            by_cases hi : i < total <;>
              · intro h
                simp [hbv, ho, he, hi] at h
                rcases h with h | h
                · exact Or.inl h
                · exact Or.inr (by rw [h.1]; exact hbv)
        | exn m =>
          by_cases hi : i < total <;>
            · intro h
              simp [hbv, ho, hi] at h
              rcases h with h | h
              · exact Or.inl h
              · exact Or.inr (by rw [h.1]; exact hbv)

theorem annEntry_raw_preserved (total : Nat) (force : Bool) (oracle : Nat → CallResult)
    (i : Nat) (e : AnnotationEntry) (s : AnnState) (n : String) (b : List Nat)
    (h : lookupFile s.raw n = some b) :
    lookupFile (annEntry total force oracle i e s).raw n = some b := by
  rcases annEntry_raw_cases total force oracle i e s with hr | ⟨hnone, src, _, hr⟩
  · rw [hr]; exact h
  · have hn : n ≠ e.filename := by
      intro hc; subst hc; rw [h] at hnone; exact Option.noConfusion hnone
    rw [hr, lookupFile_writeFile_ne _ _ _ _ hn]; exact h

theorem annLoop_writeRaw_mem (total : Nat) (force : Bool) (oracle : Nat → CallResult)
    (entries : List AnnotationEntry) : ∀ (i : Nat) (s : AnnState) (n : String)
    (bs : List Nat),
    Event.writeRaw n bs ∈ (annLoop total force oracle i entries s).events →
    Event.writeRaw n bs ∈ s.events ∨ lookupFile s.raw n = none := by
  induction entries with
  | nil => intro i s n bs h; exact Or.inl h
  | cons e rest ih =>
    intro i s n bs h
    rcases ih (i + 1) (annEntry total force oracle i e s) n bs h with h2 | h2
    · exact annEntry_writeRaw_mem total force oracle i e s n bs h2
    · cases hb : lookupFile s.raw n with
      | none => exact Or.inr rfl
      | some b =>
        exact absurd (annEntry_raw_preserved total force oracle i e s n b hb)
          (by rw [h2]; exact fun hc => Option.noConfusion hc)

theorem annLoop_raw_preserved (total : Nat) (force : Bool) (oracle : Nat → CallResult)
    (entries : List AnnotationEntry) : ∀ (i : Nat) (s : AnnState) (n : String)
    (b : List Nat), lookupFile s.raw n = some b →
    lookupFile (annLoop total force oracle i entries s).raw n = some b := by
  induction entries with
  | nil => intro i s n b h; exact h
  | cons e rest ih =>
    intro i s n b h
    exact ih (i + 1) (annEntry total force oracle i e s) n b
      (annEntry_raw_preserved total force oracle i e s n b h)

/-- `restore_originals()`: copy every `*.png` file of the `raw/` backup
directory over the live directory; returns the new live directory and the
write events, one per copied backup. -/
def restore_originals (live0 raw0 : Dir) : Dir × List Event :=
  let pngs := raw0.filter (fun p => isPngName p.1)
  (pngs.foldl (fun l p => writeFile l p.1 p.2) live0,
   pngs.map (fun p => Event.writeImages p.1 p.2))

theorem lookupFile_eq_none_iff (fs : Dir) (n : String) :
    lookupFile fs n = none ↔ ∀ q ∈ fs, q.1 ≠ n := by
  induction fs with
  | nil => simp [lookupFile]
  | cons p rest ih =>
    by_cases hp : p.1 = n
    · simp [lookupFile, hp]
    · simp [lookupFile, hp, ih]

theorem restoreFold_lookup_notmem (pngs : Dir) (n : String) : ∀ (l : Dir),
    (∀ q ∈ pngs, q.1 ≠ n) →
    lookupFile (pngs.foldl (fun acc p => writeFile acc p.1 p.2) l) n = lookupFile l n := by
  induction pngs with
  | nil => intro l _; rfl
  | cons p rest ih =>
    intro l h
    have hp : p.1 ≠ n := h p (by simp)
    have hr : ∀ q ∈ rest, q.1 ≠ n := fun q hq => h q (by simp [hq])
    calc lookupFile ((p :: rest).foldl (fun acc q => writeFile acc q.1 q.2) l) n
        = lookupFile (writeFile l p.1 p.2) n := by
          simp only [List.foldl_cons]; exact ih (writeFile l p.1 p.2) hr
      _ = lookupFile l n := lookupFile_writeFile_ne l p.1 n p.2 (fun hc => hp hc.symm)

theorem restoreFold_lookup_mem (pngs : Dir) (n : String) (bs : List Nat) : ∀ (l : Dir),
    (pngs.map Prod.fst).Nodup → lookupFile pngs n = some bs →
    lookupFile (pngs.foldl (fun acc p => writeFile acc p.1 p.2) l) n = some bs := by
  induction pngs with
  | nil => intro l _ h; exact absurd h (by simp [lookupFile])
  | cons p rest ih =>
    intro l hnd h
    by_cases hp : p.1 = n
    · have hbs : p.2 = bs := by
        rw [lookupFile, if_pos hp] at h
        exact Option.some.inj h
      have hrest : ∀ q ∈ rest, q.1 ≠ n := by
        intro q hq hc
        have : p.1 ∈ rest.map Prod.fst := by
          rw [hp, ← hc]; exact List.mem_map_of_mem Prod.fst hq
        exact (List.nodup_cons.mp hnd).1 this
      calc lookupFile ((p :: rest).foldl (fun acc q => writeFile acc q.1 q.2) l) n
          = lookupFile (writeFile l p.1 p.2) n := by
            simp only [List.foldl_cons]
            exact restoreFold_lookup_notmem rest n (writeFile l p.1 p.2) hrest
        _ = some bs := by rw [hp, lookupFile_writeFile_self, hbs]
    · have h2 : lookupFile rest n = some bs := by
        rw [lookupFile, if_neg hp] at h; exact h
      simp only [List.foldl_cons]
      exact ih (writeFile l p.1 p.2) (List.nodup_cons.mp hnd).2 h2

theorem lookup_filter_png (raw0 : Dir) (n : String) (hn : isPngName n = true) :
    lookupFile (raw0.filter (fun p => isPngName p.1)) n = lookupFile raw0 n := by
  induction raw0 with
  | nil => rfl
  | cons p rest ih =>
    by_cases hp : p.1 = n
    · have : isPngName p.1 = true := by rw [hp]; exact hn
      simp [List.filter_cons, this, hn, lookupFile, hp]
    · cases hq : isPngName p.1 <;> simp [List.filter_cons, hq, lookupFile, hp, ih]

/-- The `__main__` dispatcher of the annotate script: with `--restore` it
runs `restore_originals()` and falls off the end of the script (exit 0)
without ever consulting the API key; otherwise `annotate_images()` checks
the key first (`sys.exit(1)` before any client creation, backup or call)
and the process exits 0 iff no item failed. -/
def annotate_main (apiKey : Option String) (argv : List String)
    (anns : List AnnotationEntry) (oracle : Nat → CallResult)
    (live0 raw0 : Dir) : Nat × List Event :=
  if argv.contains "--restore" then
    (0, (restore_originals live0 raw0).2)
  else if keyMissing apiKey then (1, [])
  else
    let s := annotate_images anns (argv.contains "--force") oracle live0 raw0
    (if s.failed == 0 then 0 else 1, s.events)

end AnnotateScreenshots

open Storybook

/-- C9 (counterexample): the claim asserts the fixed inter-request delay of
annotation mode equals that of generation mode, but the annotate script
sets `DELAY_BETWEEN_REQUESTS = 5` while the generation script sets
`DELAY_BETWEEN_REQUESTS = 6`, so the two delays are not equal. -/
theorem c9_delays_differ_counterexample :
    AnnotateScreenshots.DELAY_BETWEEN_REQUESTS ≠
      GenerateImages.DELAY_BETWEEN_REQUESTS := by
  decide

/-- C9 (amended): the fixed inter-request delay of annotation mode is
5 seconds and that of generation mode is 6 seconds; they differ by one
second rather than being equal. -/
theorem c9_delays_amended :
    AnnotateScreenshots.DELAY_BETWEEN_REQUESTS = 5 ∧
      GenerateImages.DELAY_BETWEEN_REQUESTS = 6 ∧
      AnnotateScreenshots.DELAY_BETWEEN_REQUESTS ≠
        GenerateImages.DELAY_BETWEEN_REQUESTS := by
  decide

/-- C1: generation is idempotent: when every output file of the manifest is
already present on disk with non-zero size (as after a completed run with
no entries added), a run yields `generated = 0`, `skipped = total`, and
issues no external generation call. -/
theorem c1_generation_idempotent (manifest : List GenerateImages.ManifestEntry)
    (oracle : Nat → CallResult) (fs0 : Dir)
    (h : ∀ e ∈ manifest, existsNonEmpty fs0 e.filename = true) :
    (GenerateImages.generate_images manifest oracle fs0).generated = 0 ∧
    (GenerateImages.generate_images manifest oracle fs0).skipped = manifest.length ∧
    (GenerateImages.generate_images manifest oracle fs0).events.countP Event.isApiCall = 0 := by
  have hl := GenerateImages.genLoop_all_skip manifest.length oracle manifest 1
    { fs := fs0, generated := 0, skipped := 0, failed := 0, events := [] }
    (by intro e he; simpa using h e he)
  simp only [GenerateImages.generate_images, hl]
  simp [Event.isApiCall]

/-- C1 witness: a one-entry manifest whose output file is present with
non-zero size; the run skips it, generates nothing and calls nothing. -/
theorem c1_generation_idempotent_witness :
    (GenerateImages.generate_images
        [{ filename := "a.png", prompt := "p", aspect_ratio := "4:5",
           resolution := "2K", placement := "cover" }]
        (fun _ => CallResult.exn "offline") [("a.png", [7])]).generated = 0 ∧
    (GenerateImages.generate_images
        [{ filename := "a.png", prompt := "p", aspect_ratio := "4:5",
           resolution := "2K", placement := "cover" }]
        (fun _ => CallResult.exn "offline") [("a.png", [7])]).skipped =
      [({ filename := "a.png", prompt := "p", aspect_ratio := "4:5",
          resolution := "2K", placement := "cover" } : GenerateImages.ManifestEntry)].length ∧
    (GenerateImages.generate_images
        [{ filename := "a.png", prompt := "p", aspect_ratio := "4:5",
           resolution := "2K", placement := "cover" }]
        (fun _ => CallResult.exn "offline") [("a.png", [7])]).events.countP
      Event.isApiCall = 0 :=
  c1_generation_idempotent _ _ _ (by decide)

/-- C2: backup-once invariant: a run of the annotation batch (any force
flag, any per-item outcomes) (a) never changes an existing backup file's
bytes, (b) emits a backup-write event for a name only when no backup for
that name existed at the start of the run, and (c) whenever a live file's
bytes changed, a backup exists afterwards, and if none existed at the
start of the run the backup holds exactly the pre-run live bytes. -/
theorem c2_backup_once (anns : List AnnotateScreenshots.AnnotationEntry) (force : Bool)
    (oracle : Nat → CallResult) (live0 raw0 : Dir) :
    (∀ n b, lookupFile raw0 n = some b →
      lookupFile (AnnotateScreenshots.annotate_images anns force oracle live0 raw0).raw n
        = some b) ∧
    (∀ n bs, Event.writeRaw n bs ∈
        (AnnotateScreenshots.annotate_images anns force oracle live0 raw0).events →
      lookupFile raw0 n = none) ∧
    (∀ n, lookupFile (AnnotateScreenshots.annotate_images anns force oracle live0 raw0).live n
        ≠ lookupFile live0 n →
      lookupFile (AnnotateScreenshots.annotate_images anns force oracle live0 raw0).raw n
        ≠ none ∧
      (lookupFile raw0 n = none →
        lookupFile (AnnotateScreenshots.annotate_images anns force oracle live0 raw0).raw n
          = lookupFile live0 n)) := by
  have hinv := AnnotateScreenshots.annLoop_backupInv
    (anns.filter (fun a => a.style != "none")).length force oracle
    (anns.filter (fun a => a.style != "none")) 1
    { live := live0, raw := raw0, annotated := 0, skipped := 0, failed := 0, events := [] }
  have heq : AnnotateScreenshots.annotate_images anns force oracle live0 raw0 =
      AnnotateScreenshots.annLoop (anns.filter (fun a => a.style != "none")).length
        force oracle 1 (anns.filter (fun a => a.style != "none"))
        { live := live0, raw := raw0, annotated := 0, skipped := 0, failed := 0,
          events := [] } := rfl
  rw [heq]
  refine ⟨?_, ?_, ?_⟩
  · intro n b hb
    exact AnnotateScreenshots.annLoop_raw_preserved _ force oracle _ 1 _ n b hb
  · intro n bs hmem
    rcases AnnotateScreenshots.annLoop_writeRaw_mem
      (anns.filter (fun a => a.style != "none")).length force oracle
      (anns.filter (fun a => a.style != "none")) 1
      { live := live0, raw := raw0, annotated := 0, skipped := 0, failed := 0, events := [] }
      n bs hmem with h | h
    · simp at h
    · exact h
  · intro n hlive
    have h := hinv n
    refine ⟨h.2 hlive, ?_⟩
    intro hraw0
    rcases h.1 with hr | hr
    · exact absurd (hr.trans hraw0) (h.2 hlive)
    · exact hr.2.1

/-- C2 witness: a `--force` re-run leaves the existing backup bytes `[1]`
untouched while re-annotating; a first run that overwrites the live file
creates the backup with the pre-run live bytes `[3]`. -/
theorem c2_backup_once_witness :
    lookupFile (AnnotateScreenshots.annotate_images
      [{ filename := "01.png", style := "callout", description := "d", instruction := "w" }]
      true
      (fun _ => CallResult.ok
        { candidates := [{ parts := [{ inline_data := some [9], text := none }],
                           finish_reason := none }] })
      [("01.png", [3])] [("01.png", [1])]).raw "01.png" = some [1] ∧
    lookupFile (AnnotateScreenshots.annotate_images
      [{ filename := "01.png", style := "callout", description := "d", instruction := "w" }]
      false
      (fun _ => CallResult.ok
        { candidates := [{ parts := [{ inline_data := some [9], text := none }],
                           finish_reason := none }] })
      [("01.png", [3])] []).raw "01.png" = some [3] := by
  constructor
  · exact (c2_backup_once
      [{ filename := "01.png", style := "callout", description := "d", instruction := "w" }]
      true
      (fun _ => CallResult.ok
        { candidates := [{ parts := [{ inline_data := some [9], text := none }],
                           finish_reason := none }] })
      [("01.png", [3])] [("01.png", [1])]).1 "01.png" [1] (by decide)
  · exact (((c2_backup_once
      [{ filename := "01.png", style := "callout", description := "d", instruction := "w" }]
      false
      (fun _ => CallResult.ok
        { candidates := [{ parts := [{ inline_data := some [9], text := none }],
                           finish_reason := none }] })
      [("01.png", [3])] []).2.2 "01.png" (by decide)).2 (by decide)).trans (by decide)

/-- C3 (counterexample): the restore operation only globs `*.png` in the
backup directory; a live file `a.jpg` whose backup counterpart `a.jpg`
holds different bytes is not copied, so after restore it is not byte-equal
to its backup, contradicting the claim's universal statement over every
file with a backup counterpart. -/
theorem c3_restore_png_only_counterexample :
    lookupFile (AnnotateScreenshots.restore_originals
      [("a.jpg", [1])] [("a.jpg", [2])]).1 "a.jpg" = some [1] ∧
    lookupFile [("a.jpg", [2])] "a.jpg" = some [2] ∧
    some [1] ≠ some ([2] : List Nat) := by
  refine ⟨rfl, rfl, by decide⟩

/-- C3 (amended): after restore, every `*.png` live file with a backup
counterpart is byte-equal to that backup; every live file with no backup
counterpart, and every non-`*.png` file, is left unchanged; and in
`--restore` mode the outcome is independent of the manifest, the API key
and the oracle. -/
theorem c3_restore_correctness_amended (live0 raw0 : Dir)
    (hnd : (raw0.map Prod.fst).Nodup) :
    (∀ n bs, isPngName n = true → lookupFile raw0 n = some bs →
      lookupFile (AnnotateScreenshots.restore_originals live0 raw0).1 n = some bs) ∧
    (∀ n, lookupFile raw0 n = none →
      lookupFile (AnnotateScreenshots.restore_originals live0 raw0).1 n
        = lookupFile live0 n) ∧
    (∀ n, isPngName n = false →
      lookupFile (AnnotateScreenshots.restore_originals live0 raw0).1 n
        = lookupFile live0 n) ∧
    (∀ (k k2 : Option String) (argv : List String)
       (anns anns2 : List AnnotateScreenshots.AnnotationEntry)
       (o o2 : Nat → CallResult),
      argv.contains "--restore" = true →
      AnnotateScreenshots.annotate_main k argv anns o live0 raw0 =
        AnnotateScreenshots.annotate_main k2 argv anns2 o2 live0 raw0) := by
  have hnd2 : ((raw0.filter (fun p => isPngName p.1)).map Prod.fst).Nodup := by
    refine List.Nodup.sublist ?_ hnd
    exact List.Sublist.map Prod.fst (List.filter_sublist raw0)
  refine ⟨?_, ?_, ?_, ?_⟩
  · intro n bs hn h
    have h2 : lookupFile (raw0.filter (fun p => isPngName p.1)) n = some bs :=
      (AnnotateScreenshots.lookup_filter_png raw0 n hn).trans h
    exact AnnotateScreenshots.restoreFold_lookup_mem _ n bs live0 hnd2 h2
  · intro n h
    have h2 : ∀ q ∈ raw0.filter (fun p => isPngName p.1), q.1 ≠ n := by
      intro q hq
      exact (AnnotateScreenshots.lookupFile_eq_none_iff raw0 n).mp h q
        (List.mem_of_mem_filter hq)
    exact AnnotateScreenshots.restoreFold_lookup_notmem _ n live0 h2
  · intro n hn
    have h2 : ∀ q ∈ raw0.filter (fun p => isPngName p.1), q.1 ≠ n := by
      intro q hq hc
      have hq2 : isPngName q.1 = true := by
        have := List.of_mem_filter hq
        simpa using this
      rw [hc, hn] at hq2
      exact Bool.noConfusion hq2
    exact AnnotateScreenshots.restoreFold_lookup_notmem _ n live0 h2
  · intro k k2 argv anns anns2 o o2 hr
    unfold AnnotateScreenshots.annotate_main
    rw [hr]
    simp

/-- C3 witness: restoring with backup `a.png := [1]` over live
`a.png := [5], b.png := [6]` yields `a.png = [1]` (byte-equal to its
backup) and leaves `b.png = [6]` (no backup counterpart) unchanged. -/
theorem c3_restore_correctness_amended_witness :
    lookupFile (AnnotateScreenshots.restore_originals
      [("a.png", [5]), ("b.png", [6])] [("a.png", [1])]).1 "a.png" = some [1] ∧
    lookupFile (AnnotateScreenshots.restore_originals
      [("a.png", [5]), ("b.png", [6])] [("a.png", [1])]).1 "b.png" = some [6] := by
  have h := c3_restore_correctness_amended [("a.png", [5]), ("b.png", [6])]
    [("a.png", [1])] (by decide)
  exact ⟨h.1 "a.png" [1] (by decide) (by decide),
    (h.2.1 "b.png" (by decide)).trans (by decide)⟩

/-- C4: an annotation entry whose source file does not exist at processing
time is recorded as skipped (the state changes only by `skipped + 1`, so
failed is untouched and no event — in particular no network call — is
issued), and the loop continues with the next entry. -/
theorem c4_skip_on_missing (total : Nat) (force : Bool) (oracle : Nat → CallResult)
    (i : Nat) (e : AnnotateScreenshots.AnnotationEntry)
    (s : AnnotateScreenshots.AnnState) (rest : List AnnotateScreenshots.AnnotationEntry)
    (h : lookupFile s.live e.filename = none) :
    AnnotateScreenshots.annEntry total force oracle i e s =
      { s with skipped := s.skipped + 1 } ∧
    AnnotateScreenshots.annLoop total force oracle i (e :: rest) s =
      AnnotateScreenshots.annLoop total force oracle (i + 1) rest
        { s with skipped := s.skipped + 1 } := by
  have hstep : AnnotateScreenshots.annEntry total force oracle i e s =
      { s with skipped := s.skipped + 1 } := by
    unfold AnnotateScreenshots.annEntry
    simp [h]
  exact ⟨hstep, by simp only [AnnotateScreenshots.annLoop, hstep]⟩

/-- C4 witness: a missing source file yields a skip and the loop proceeds. -/
theorem c4_skip_on_missing_witness :
    AnnotateScreenshots.annEntry 1 false (fun _ => CallResult.exn "offline") 1
      { filename := "01-dashboard.png", style := "callout", description := "d",
        instruction := "i" }
      { live := [], raw := [], annotated := 0, skipped := 0, failed := 0, events := [] } =
      { live := [], raw := [], annotated := 0, skipped := 1, failed := 0, events := [] } ∧
    AnnotateScreenshots.annLoop 1 false (fun _ => CallResult.exn "offline") 1
      [{ filename := "01-dashboard.png", style := "callout", description := "d",
         instruction := "i" }]
      { live := [], raw := [], annotated := 0, skipped := 0, failed := 0, events := [] } =
      AnnotateScreenshots.annLoop 1 false (fun _ => CallResult.exn "offline") 2 []
      { live := [], raw := [], annotated := 0, skipped := 1, failed := 0, events := [] } :=
  c4_skip_on_missing 1 false (fun _ => CallResult.exn "offline") 1
    { filename := "01-dashboard.png", style := "callout", description := "d",
      instruction := "i" }
    { live := [], raw := [], annotated := 0, skipped := 0, failed := 0, events := [] }
    [] (by decide)

/-- C5: per-item error containment in both modes: when the oracle reports
an exception for an item actually processed (not skipped), the failed
counter increments by exactly one, the other counters and the directory
contents are unchanged, and the loop continues with the remaining
entries. -/
theorem c5_error_containment
    (total : Nat) (oracle : Nat → CallResult) (i : Nat)
    (e : GenerateImages.ManifestEntry) (s : GenerateImages.GenState)
    (rest : List GenerateImages.ManifestEntry) (msg : String)
    (hns : existsNonEmpty s.fs e.filename = false)
    (hexn : oracle i = CallResult.exn msg)
    (total2 : Nat) (force : Bool) (oracle2 : Nat → CallResult) (i2 : Nat)
    (e2 : AnnotateScreenshots.AnnotationEntry) (s2 : AnnotateScreenshots.AnnState)
    (rest2 : List AnnotateScreenshots.AnnotationEntry) (msg2 : String) (bs : List Nat)
    (hl : lookupFile s2.live e2.filename = some bs)
    (hg : ((lookupFile s2.raw e2.filename).isSome && !force) = false)
    (hexn2 : oracle2 i2 = CallResult.exn msg2) :
    ((GenerateImages.genEntry total oracle i e s).failed = s.failed + 1 ∧
     (GenerateImages.genEntry total oracle i e s).generated = s.generated ∧
     (GenerateImages.genEntry total oracle i e s).skipped = s.skipped ∧
     (GenerateImages.genEntry total oracle i e s).fs = s.fs ∧
     GenerateImages.genLoop total oracle i (e :: rest) s =
       GenerateImages.genLoop total oracle (i + 1) rest
         (GenerateImages.genEntry total oracle i e s)) ∧
    ((AnnotateScreenshots.annEntry total2 force oracle2 i2 e2 s2).failed = s2.failed + 1 ∧
     (AnnotateScreenshots.annEntry total2 force oracle2 i2 e2 s2).annotated = s2.annotated ∧
     (AnnotateScreenshots.annEntry total2 force oracle2 i2 e2 s2).skipped = s2.skipped ∧
     (AnnotateScreenshots.annEntry total2 force oracle2 i2 e2 s2).live = s2.live ∧
     AnnotateScreenshots.annLoop total2 force oracle2 i2 (e2 :: rest2) s2 =
       AnnotateScreenshots.annLoop total2 force oracle2 (i2 + 1) rest2
         (AnnotateScreenshots.annEntry total2 force oracle2 i2 e2 s2)) := by
  constructor
  · refine ⟨?_, ?_, ?_, ?_, by simp only [GenerateImages.genLoop]⟩ <;>
    · unfold GenerateImages.genEntry
      by_cases hi : i < total <;> simp [hns, hexn, hi]
  · have hfields := AnnotateScreenshots.annEntry_exn_fields total2 force oracle2 i2
      e2 s2 msg2 bs hl hg hexn2
    exact ⟨hfields.1, hfields.2.1, hfields.2.2.1, hfields.2.2.2,
      by simp only [AnnotateScreenshots.annLoop]⟩

/-- C5 witness: concrete exception outcomes in both modes increment only
the failed counter (from 0 to 1). -/
theorem c5_error_containment_witness :
    (GenerateImages.genEntry 1 (fun _ => CallResult.exn "boom") 1
      { filename := "b.png", prompt := "p", aspect_ratio := "1:1",
        resolution := "1K", placement := "x" }
      { fs := [], generated := 0, skipped := 0, failed := 0, events := [] }).failed = 1 ∧
    (AnnotateScreenshots.annEntry 1 false (fun _ => CallResult.exn "boom") 1
      { filename := "01.png", style := "callout", description := "d", instruction := "w" }
      { live := [("01.png", [3])], raw := [], annotated := 0, skipped := 0,
        failed := 0, events := [] }).failed = 1 := by
  have h := c5_error_containment 1 (fun _ => CallResult.exn "boom") 1
    { filename := "b.png", prompt := "p", aspect_ratio := "1:1",
      resolution := "1K", placement := "x" }
    { fs := [], generated := 0, skipped := 0, failed := 0, events := [] }
    [] "boom" (by decide) rfl
    1 false (fun _ => CallResult.exn "boom") 1
    { filename := "01.png", style := "callout", description := "d", instruction := "w" }
    { live := [("01.png", [3])], raw := [], annotated := 0, skipped := 0,
      failed := 0, events := [] }
    [] "boom" [3] (by decide) (by decide) rfl
  exact ⟨h.1.1, h.2.1⟩

/-- C7: first-image-part extraction: in both modes, for a processed entry
whose call returns a response, the payload persisted to disk is exactly
the first inline-image part encountered when scanning the first
candidate's parts in order (`specFirstInline`, stated from the spec's
wording and matching the code's `extractImage`), and when no part carries
inline image data the item is marked failed and nothing is persisted. -/
theorem c7_first_image_part
    (total : Nat) (oracle : Nat → CallResult) (i : Nat)
    (e : GenerateImages.ManifestEntry) (s : GenerateImages.GenState) (r : Response)
    (hns : existsNonEmpty s.fs e.filename = false)
    (hok : oracle i = CallResult.ok r)
    (total2 : Nat) (force : Bool) (oracle2 : Nat → CallResult) (i2 : Nat)
    (e2 : AnnotateScreenshots.AnnotationEntry) (s2 : AnnotateScreenshots.AnnState)
    (r2 : Response) (bs : List Nat)
    (hl : lookupFile s2.live e2.filename = some bs)
    (hg : ((lookupFile s2.raw e2.filename).isSome && !force) = false)
    (hok2 : oracle2 i2 = CallResult.ok r2) :
    extractImage r = specFirstInline (firstCandidateParts r) ∧
    (∀ img, specFirstInline (firstCandidateParts r) = some img →
      lookupFile (GenerateImages.genEntry total oracle i e s).fs e.filename = some img ∧
      (GenerateImages.genEntry total oracle i e s).generated = s.generated + 1 ∧
      (GenerateImages.genEntry total oracle i e s).failed = s.failed) ∧
    (specFirstInline (firstCandidateParts r) = none →
      (GenerateImages.genEntry total oracle i e s).failed = s.failed + 1 ∧
      (GenerateImages.genEntry total oracle i e s).fs = s.fs) ∧
    (∀ img, specFirstInline (firstCandidateParts r2) = some img →
      lookupFile (AnnotateScreenshots.annEntry total2 force oracle2 i2 e2 s2).live
          e2.filename = some img ∧
      (AnnotateScreenshots.annEntry total2 force oracle2 i2 e2 s2).annotated
        = s2.annotated + 1 ∧
      (AnnotateScreenshots.annEntry total2 force oracle2 i2 e2 s2).failed = s2.failed) ∧
    (specFirstInline (firstCandidateParts r2) = none →
      (AnnotateScreenshots.annEntry total2 force oracle2 i2 e2 s2).failed
        = s2.failed + 1 ∧
      (AnnotateScreenshots.annEntry total2 force oracle2 i2 e2 s2).live = s2.live) := by
  refine ⟨extractImage_eq_spec r, ?_, ?_, ?_, ?_⟩
  · intro img hspec
    have he : extractImage r = some img := by rw [extractImage_eq_spec]; exact hspec
    exact GenerateImages.genEntry_save total oracle i e s r img hns hok he
  · intro hspec
    have he : extractImage r = none := by rw [extractImage_eq_spec]; exact hspec
    have h := GenerateImages.genEntry_nosave total oracle i e s r hns hok he
    exact ⟨h.1, h.2.1⟩
  · intro img hspec
    have he : extractImage r2 = some img := by rw [extractImage_eq_spec]; exact hspec
    exact AnnotateScreenshots.annEntry_save total2 force oracle2 i2 e2 s2 r2 img bs
      hl hg hok2 he
  · intro hspec
    have he : extractImage r2 = none := by rw [extractImage_eq_spec]; exact hspec
    have h := AnnotateScreenshots.annEntry_nosave total2 force oracle2 i2 e2 s2 r2 bs
      hl hg hok2 he
    exact ⟨h.1, h.2.1⟩

/-- C7 witness: a concrete response whose first candidate holds a text
part, then an inline-image part `[9, 9]`, then another inline-image part
`[5]`: in both modes the persisted payload is `[9, 9]`, the first
inline-image part in scan order. -/
theorem c7_first_image_part_witness :
    lookupFile (GenerateImages.genEntry 1
      (fun _ => CallResult.ok
        { candidates := [{ parts := [{ inline_data := none, text := some "t" },
                                     { inline_data := some [9, 9], text := none },
                                     { inline_data := some [5], text := none }],
                           finish_reason := none }] })
      1
      { filename := "b.png", prompt := "p", aspect_ratio := "1:1",
        resolution := "1K", placement := "x" }
      { fs := [], generated := 0, skipped := 0, failed := 0, events := [] }).fs
      "b.png" = some [9, 9] ∧
    lookupFile (AnnotateScreenshots.annEntry 1 false
      (fun _ => CallResult.ok
        { candidates := [{ parts := [{ inline_data := none, text := some "t" },
                                     { inline_data := some [9, 9], text := none },
                                     { inline_data := some [5], text := none }],
                           finish_reason := none }] })
      1
      { filename := "01.png", style := "callout", description := "d", instruction := "w" }
      { live := [("01.png", [3])], raw := [], annotated := 0, skipped := 0,
        failed := 0, events := [] }).live "01.png" = some [9, 9] := by
  have h := c7_first_image_part 1
    (fun _ => CallResult.ok
      { candidates := [{ parts := [{ inline_data := none, text := some "t" },
                                   { inline_data := some [9, 9], text := none },
                                   { inline_data := some [5], text := none }],
                         finish_reason := none }] })
    1
    { filename := "b.png", prompt := "p", aspect_ratio := "1:1",
      resolution := "1K", placement := "x" }
    { fs := [], generated := 0, skipped := 0, failed := 0, events := [] }
    { candidates := [{ parts := [{ inline_data := none, text := some "t" },
                                 { inline_data := some [9, 9], text := none },
                                 { inline_data := some [5], text := none }],
                       finish_reason := none }] }
    (by decide) rfl
    1 false
    (fun _ => CallResult.ok
      { candidates := [{ parts := [{ inline_data := none, text := some "t" },
                                   { inline_data := some [9, 9], text := none },
                                   { inline_data := some [5], text := none }],
                         finish_reason := none }] })
    1
    { filename := "01.png", style := "callout", description := "d", instruction := "w" }
    { live := [("01.png", [3])], raw := [], annotated := 0, skipped := 0,
      failed := 0, events := [] }
    { candidates := [{ parts := [{ inline_data := none, text := some "t" },
                                 { inline_data := some [9, 9], text := none },
                                 { inline_data := some [5], text := none }],
                       finish_reason := none }] }
    [3] (by decide) (by decide) rfl
  exact ⟨(h.2.1 [9, 9] (by decide)).1, (h.2.2.2.1 [9, 9] (by decide)).1⟩

/-- C8 (counterexample): the claim requires a delay after every non-last
entry regardless of outcome, including skipped ones; but the skip branch
of the generation loop `continue`s past the sleep. With a two-entry
manifest whose first output file already exists (so entry 1, which is not
last, is skipped), the run issues no sleep at all even though entry 2 is
also skipped. -/
theorem c8_skip_no_delay_counterexample :
    (GenerateImages.generate_images
      [{ filename := "a.png", prompt := "p", aspect_ratio := "1:1",
         resolution := "1K", placement := "x" },
       { filename := "b.png", prompt := "q", aspect_ratio := "1:1",
         resolution := "1K", placement := "y" }]
      (fun _ => CallResult.exn "offline")
      [("a.png", [1]), ("b.png", [2])]).events.countP Event.isSleep = 0 ∧
    (GenerateImages.generate_images
      [{ filename := "a.png", prompt := "p", aspect_ratio := "1:1",
         resolution := "1K", placement := "x" },
       { filename := "b.png", prompt := "q", aspect_ratio := "1:1",
         resolution := "1K", placement := "y" }]
      (fun _ => CallResult.exn "offline")
      [("a.png", [1]), ("b.png", [2])]).skipped = 2 := by
  decide

/-- C8 (amended): in generation mode, for every non-last entry that is
actually processed (outcome generated or failed) the fixed delay is waited
as the last action of the entry; no delay occurs after the last entry; and
a skipped entry is passed over by `continue` without any delay. -/
theorem c8_delay_amended (total : Nat) (oracle : Nat → CallResult) (i : Nat)
    (e : GenerateImages.ManifestEntry) (s : GenerateImages.GenState) :
    (existsNonEmpty s.fs e.filename = true →
      GenerateImages.genEntry total oracle i e s =
        { s with skipped := s.skipped + 1 }) ∧
    (existsNonEmpty s.fs e.filename = false → i < total →
      ∃ mid, (GenerateImages.genEntry total oracle i e s).events =
          s.events ++ (mid ++ [Event.sleep GenerateImages.DELAY_BETWEEN_REQUESTS]) ∧
        mid.countP Event.isSleep = 0) ∧
    (existsNonEmpty s.fs e.filename = false → ¬ i < total →
      ∃ mid, (GenerateImages.genEntry total oracle i e s).events = s.events ++ mid ∧
        mid.countP Event.isSleep = 0) := by
  refine ⟨fun h => GenerateImages.genEntry_skip total oracle i e s h, ?_, ?_⟩
  · intro hns hi
    unfold GenerateImages.genEntry
    cases ho : oracle i with
    | ok r =>
      cases he : extractImage r with
      | some img =>
        exact ⟨[Event.apiCall e.filename, Event.writeImages e.filename img],
          by simp [hns, ho, he, hi, Event.isSleep]⟩
      | none =>
        exact ⟨[Event.apiCall e.filename], by simp [hns, ho, he, hi, Event.isSleep]⟩
    | exn m =>
      exact ⟨[Event.apiCall e.filename], by simp [hns, ho, hi, Event.isSleep]⟩
  · intro hns hi
    unfold GenerateImages.genEntry
    cases ho : oracle i with
    | ok r =>
      cases he : extractImage r with
      | some img =>
        exact ⟨[Event.apiCall e.filename, Event.writeImages e.filename img],
          by simp [hns, ho, he, hi, Event.isSleep]⟩
      | none =>
        exact ⟨[Event.apiCall e.filename], by simp [hns, ho, he, hi, Event.isSleep]⟩
    | exn m =>
      exact ⟨[Event.apiCall e.filename], by simp [hns, ho, hi, Event.isSleep]⟩

/-- C8 witness: a processed non-last entry ends with a sleep of the fixed
delay, and a processed last entry sleeps not at all. -/
theorem c8_delay_amended_witness :
    (∃ mid, (GenerateImages.genEntry 2 (fun _ => CallResult.exn "offline") 1
      { filename := "b.png", prompt := "q", aspect_ratio := "1:1",
        resolution := "1K", placement := "y" }
      { fs := [], generated := 0, skipped := 0, failed := 0, events := [] }).events =
        [] ++ (mid ++ [Event.sleep GenerateImages.DELAY_BETWEEN_REQUESTS]) ∧
      mid.countP Event.isSleep = 0) ∧
    (∃ mid, (GenerateImages.genEntry 2 (fun _ => CallResult.exn "offline") 2
      { filename := "b.png", prompt := "q", aspect_ratio := "1:1",
        resolution := "1K", placement := "y" }
      { fs := [], generated := 0, skipped := 0, failed := 0, events := [] }).events =
        [] ++ mid ∧ mid.countP Event.isSleep = 0) := by
  constructor
  · exact (c8_delay_amended 2 (fun _ => CallResult.exn "offline") 1
      { filename := "b.png", prompt := "q", aspect_ratio := "1:1",
        resolution := "1K", placement := "y" }
      { fs := [], generated := 0, skipped := 0, failed := 0, events := [] }).2.1
      (by decide) (by decide)
  · exact (c8_delay_amended 2 (fun _ => CallResult.exn "offline") 2
      { filename := "b.png", prompt := "q", aspect_ratio := "1:1",
        resolution := "1K", placement := "y" }
      { fs := [], generated := 0, skipped := 0, failed := 0, events := [] }).2.2
      (by decide) (by decide)

/-- C6 (counterexample): with the API-key variable unset and `--restore`
on the command line, the annotate script's `__main__` never checks the
key: it runs the restore, writes a file into the live directory, and the
process exits 0, not 1 — contradicting the claim that every invocation
mode exits 1 before any filesystem modification. -/
theorem c6_restore_no_key_check_counterexample :
    AnnotateScreenshots.annotate_main none ["--restore"] []
        (fun _ => CallResult.exn "offline") [("a.png", [1])] [("a.png", [2])]
      = (0, [Event.writeImages "a.png" [2]]) ∧ (0 : Nat) ≠ 1 := by
  constructor
  · rfl
  · decide

/-- C6 (amended): with the API-key variable unset (or empty), the
generation script exits 1 at module load with no events, and the annotate
script without `--restore` exits 1 from the pre-flight check with no
events; with `--restore` the key is never consulted: the run performs the
restore copies and exits 0 regardless of the key. -/
theorem c6_missing_key_amended (k : Option String)
    (manifest : List GenerateImages.ManifestEntry) (oracleG : Nat → CallResult)
    (fs0 : Dir) (argv : List String)
    (anns : List AnnotateScreenshots.AnnotationEntry) (oracleA : Nat → CallResult)
    (live0 raw0 : Dir) (hk : keyMissing k = true) :
    GenerateImages.generate_main k manifest oracleG fs0 = (1, []) ∧
    (argv.contains "--restore" = false →
      AnnotateScreenshots.annotate_main k argv anns oracleA live0 raw0 = (1, [])) ∧
    (argv.contains "--restore" = true →
      AnnotateScreenshots.annotate_main k argv anns oracleA live0 raw0 =
        (0, (AnnotateScreenshots.restore_originals live0 raw0).2)) := by
  refine ⟨?_, ?_, ?_⟩
  · simp [GenerateImages.generate_main, hk]
  · intro hr
    unfold AnnotateScreenshots.annotate_main
    rw [hr, hk]
    simp
  · intro hr
    unfold AnnotateScreenshots.annotate_main
    rw [hr]
    simp

/-- C6 witness: with the key unset, generation and plain annotation exit 1
doing nothing, while `--restore` copies the backup and exits 0. -/
theorem c6_missing_key_amended_witness :
    GenerateImages.generate_main none [] (fun _ => CallResult.exn "offline") [] = (1, []) ∧
    AnnotateScreenshots.annotate_main none [] [] (fun _ => CallResult.exn "offline")
      [("a.png", [1])] [("a.png", [2])] = (1, []) ∧
    AnnotateScreenshots.annotate_main none ["--restore"] []
      (fun _ => CallResult.exn "offline") [("a.png", [1])] [("a.png", [2])] =
      (0, (AnnotateScreenshots.restore_originals [("a.png", [1])] [("a.png", [2])]).2) := by
  have h1 := c6_missing_key_amended none [] (fun _ => CallResult.exn "offline") []
    [] [] (fun _ => CallResult.exn "offline") [("a.png", [1])] [("a.png", [2])] (by decide)
  have h2 := c6_missing_key_amended none [] (fun _ => CallResult.exn "offline") []
    ["--restore"] [] (fun _ => CallResult.exn "offline")
    [("a.png", [1])] [("a.png", [2])] (by decide)
  exact ⟨h1.1, h1.2.1 (by decide), h2.2.2 (by decide)⟩

/-- C10: in both modes every processed work item increments exactly one of
the three run counters, so at the end of a run the counters sum to the
number of work items: the full manifest length in generation mode, and the
number of entries whose style differs from "none" in annotation mode. -/
theorem c10_counter_partition (manifest : List GenerateImages.ManifestEntry)
    (oracleG : Nat → CallResult) (fs0 : Dir)
    (anns : List AnnotateScreenshots.AnnotationEntry) (force : Bool)
    (oracleA : Nat → CallResult) (live0 raw0 : Dir) :
    ((GenerateImages.generate_images manifest oracleG fs0).generated
      + (GenerateImages.generate_images manifest oracleG fs0).skipped
      + (GenerateImages.generate_images manifest oracleG fs0).failed
      = manifest.length)
    ∧ ((AnnotateScreenshots.annotate_images anns force oracleA live0 raw0).annotated
      + (AnnotateScreenshots.annotate_images anns force oracleA live0 raw0).skipped
      + (AnnotateScreenshots.annotate_images anns force oracleA live0 raw0).failed
      = (anns.filter (fun a => a.style != "none")).length) := by
  constructor
  · have h := GenerateImages.genLoop_counter_sum manifest.length oracleG manifest 1
      { fs := fs0, generated := 0, skipped := 0, failed := 0, events := [] }
    simp only [GenerateImages.generate_images]
    simpa using h
  · have h := AnnotateScreenshots.annLoop_counter_sum
      (anns.filter (fun a => a.style != "none")).length force oracleA
      (anns.filter (fun a => a.style != "none")) 1
      { live := live0, raw := raw0, annotated := 0, skipped := 0, failed := 0, events := [] }
    simp only [AnnotateScreenshots.annotate_images]
    simpa using h
